import Mathlib

/-!
# Verification of the Secure Client Gateway and wizard navigation

Shallow embedding of `src/utils/secure_clients.py` (class `SecureClientManager`)
and of `wizard_nav` / `render_step_list` from `src/ui/app.py`, with theorems
settling the specification claims about them.

Modelling conventions:
* the process environment is a function `String → Option String`
  (`os.getenv`);
* Python's `a or b` on optional strings (`None` and `""` are falsy) is
  `pyOr`; truthiness of an optional string is `pyTruthy`;
* a `requests.Session` is its custom header dictionary plus its `verify`
  attribute; `headers.update` is an association-list update;
* Python exceptions are values of `PyError`; a function that can raise
  returns `Except PyError α`; `try/except` is a `match` on that result;
* handle construction (`requests.Session()`, `chromadb.HttpClient(...)`,
  `GraphDatabase.driver(...)`, `redis.Redis(...)`) is instrumented by an
  allocation counter threaded through each function: every constructor call
  increments the counter by one, so "how many handles does this code path
  create" is the difference of the counters;
* the availability of an optional client library (`import chromadb` etc.)
  is a boolean parameter of the accessor whose body performs the import;
* network behaviour of the four backends is an oracle (`World`): each
  outbound call is a function of the handle/URL that may return a value or
  raise.
-/

/-- Process environment: `os.getenv`. -/
def Env : Type := String → Option String

/-- `os.getenv(key, default)`. -/
def getenvD (env : Env) (key default : String) : String :=
  (env key).getD default

/-- Python `a or b` for optional strings: `None` and `""` are falsy. -/
def pyOr (a b : Option String) : Option String :=
  match a with
  | some s => if s = "" then b else some s
  | none => b

/-- Python truthiness of an optional string. -/
def pyTruthy : Option String → Bool
  | some s => s != ""
  | none => false

/-- The truthy content of an optional string (`some` exactly when truthy). -/
def truthyStr (o : Option String) : Option String :=
  if pyTruthy o then o else none

/-- The `verify` attribute of a `requests.Session`: the library default
(certificate verification enabled), verification disabled (`False`), or a
certificate path. -/
inductive Verify
  | enabled
  | disabled
  | certPath (path : String)
deriving DecidableEq, Repr

/-- A `requests.Session`: its custom headers and its `verify` attribute. -/
structure Session where
  headers : List (String × String)
  verify : Verify
deriving DecidableEq, Repr

/-- `dict.update({key: value})` on a header dictionary kept as an
association list: overwrite in place if present, append otherwise. -/
def updateHeader (hs : List (String × String)) (key value : String) :
    List (String × String) :=
  if hs.any (fun p => p.1 = key) then
    hs.map (fun p => if p.1 = key then (key, value) else p)
  else hs ++ [(key, value)]

/-- Dictionary lookup on a header association list. -/
def headerGet (hs : List (String × String)) (key : String) : Option String :=
  (hs.find? (fun p => p.1 = key)).map Prod.snd

/-- A fresh `requests.Session()`: no custom headers, default verification. -/
def freshSession : Session :=
  { headers := [], verify := Verify.enabled }

/-- The class of a raised Python exception, as far as the gateway
distinguishes them. -/
inductive PyErrorKind
  | importError
  | valueError
  | other
deriving DecidableEq, Repr

/-- A raised Python exception: its class and its `str(e)` message. -/
structure PyError where
  kind : PyErrorKind
  msg : String
deriving DecidableEq, Repr

/-- A `chromadb.config.Settings(**settings_kwargs)` value as built by
`get_chroma_client` (both keyword arguments are always set together). -/
structure ChromaSettings where
  chroma_server_auth_credentials : String
  chroma_server_auth_provider : String
deriving DecidableEq, Repr

/-- A `chromadb.HttpClient(...)` handle: the arguments it is built from. -/
structure ChromaClient where
  host : String
  port : Nat
  settings : Option ChromaSettings
  headers : List (String × String)
deriving DecidableEq, Repr

/-- A `neo4j.GraphDatabase.driver(uri, auth=(user, password))` handle. -/
structure Neo4jDriver where
  uri : String
  authUser : String
  authPassword : Option String
deriving DecidableEq, Repr

/-- A `redis.Redis(...)` handle: the arguments it is built from. -/
structure RedisClient where
  host : String
  port : Int
  password : Option String
  decode_responses : Bool
deriving DecidableEq, Repr

/-- Whether the first list is a prefix of the second (on characters). -/
def startsWithChars : List Char → List Char → Bool
  | [], _ => true
  | _ :: _, [] => false
  | a :: as, b :: bs => a = b && startsWithChars as bs

/-- Split a character list at the first occurrence of a separator:
`some (before, after)` when the separator occurs, `none` otherwise. -/
def splitFirst (sep : List Char) : List Char → Option (List Char × List Char)
  | [] => none
  | c :: rest =>
      if startsWithChars sep (c :: rest) then some ([], (c :: rest).drop sep.length)
      else
        match splitFirst sep rest with
        | some (pre, post) => some (c :: pre, post)
        | none => none

/-- The network location of a URL: `urllib.parse.urlparse(url).netloc` for
URLs of the shape `scheme://host[:port][/path]` (the shapes the gateway
builds: no userinfo, no IPv6 brackets, no query/fragment); a URL without
`://` has an empty netloc. -/
def urlNetloc (url : String) : List Char :=
  match splitFirst [':', '/', '/'] url.data with
  | some (_, post) => post.takeWhile (fun c => c ≠ '/')
  | none => []

/-- `urlparse(url).hostname` (lower-cased host, `None` when empty) for the
same URL shapes. -/
def urlHostname (url : String) : Option String :=
  let h := (urlNetloc url).takeWhile (fun c => c ≠ ':')
  if h = [] then none else some (String.mk (h.map Char.toLower))

/-- Whether a character is a decimal digit. -/
def isDigitChar (c : Char) : Bool := '0' ≤ c && c ≤ '9'

/-- The value of a list of decimal digits. -/
def digitsVal (l : List Char) : Nat :=
  l.foldl (fun acc c => acc * 10 + (c.toNat - 48)) 0

/-- Parse a non-empty all-digit character list (plain decimal literals, the
only integer shape the gateway's environment variables use). -/
def parseDigits (l : List Char) : Option Nat :=
  if l ≠ [] && l.all isDigitChar then some (digitsVal l) else none

/-- `urlparse(url).port`: `None` when no (or an empty) port component is
present, the number when it parses and is in range, and a raised
`ValueError` otherwise. -/
def urlPort (url : String) : Except PyError (Option Nat) :=
  match (urlNetloc url).dropWhile (fun c => c ≠ ':') with
  | [] => Except.ok none
  | _ :: ps =>
      if ps = [] then Except.ok none
      else
        match parseDigits ps with
        | some n =>
            if n ≤ 65535 then Except.ok (some n)
            else Except.error ⟨PyErrorKind.valueError, "Port out of range 0-65535"⟩
        | none =>
            Except.error
              ⟨PyErrorKind.valueError, "Port could not be cast to integer value"⟩

/-- Python `int(s)` on a plain decimal string (possibly negative), raising
`ValueError` when the string is not an integer literal. -/
def pyInt (s : String) : Except PyError Int :=
  match s.data with
  | '-' :: ds =>
      match parseDigits ds with
      | some n => Except.ok (-(n : Int))
      | none =>
          Except.error ⟨PyErrorKind.valueError, "invalid literal for int() with base 10"⟩
  | ds =>
      match parseDigits ds with
      | some n => Except.ok (n : Int)
      | none =>
          Except.error ⟨PyErrorKind.valueError, "invalid literal for int() with base 10"⟩

/-- The UTF-8 encoding of a single character, as numeric bytes. -/
def utf8Bytes (c : Char) : List Nat :=
  let n := c.toNat
  if n < 128 then [n]
  else if n < 2048 then [192 + n / 64, 128 + n % 64]
  else if n < 65536 then [224 + n / 4096, 128 + n / 64 % 64, 128 + n % 64]
  else [240 + n / 262144, 128 + n / 4096 % 64, 128 + n / 64 % 64, 128 + n % 64]

/-- The UTF-8 bytes of a string: Python `s.encode()`. -/
def strBytes (s : String) : List Nat :=
  s.data.flatMap utf8Bytes

/-- The base64 alphabet. -/
def b64chars : List Char :=
  "ABCDEFGHIJKLMNOPQRSTUVWXYZabcdefghijklmnopqrstuvwxyz0123456789+/".toList

/-- The base64 digit for a 6-bit value. -/
def b64char (n : Nat) : Char :=
  b64chars.getD n 'A'

/-- The 6-bit value of a base64 digit (`none` for padding and foreign
characters). -/
def b64val (c : Char) : Option Nat :=
  b64chars.indexOf? c

/-- `base64.b64encode` on a byte list, as a character list (standard
alphabet, canonical `=` padding). -/
def b64encode : List Nat → List Char
  | [] => []
  | [a] => [b64char (a / 4), b64char (a % 4 * 16), '=', '=']
  | [a, b] => [b64char (a / 4), b64char (a % 4 * 16 + b / 16), b64char (b % 16 * 4), '=']
  | a :: b :: c :: rest =>
      b64char (a / 4) :: b64char (a % 4 * 16 + b / 16) ::
        b64char (b % 16 * 4 + c / 64) :: b64char (c % 64) :: b64encode rest

/-- `base64.b64decode` on a character list (canonical form: length a
multiple of four, `=` padding only at the very end), `none` on invalid
input. -/
def b64decode : List Char → Option (List Nat)
  | [] => some []
  | a :: b :: c :: d :: rest =>
      match b64val a, b64val b, b64val c, b64val d with
      | some x, some y, some z, some w =>
          (b64decode rest).map
            (fun r => (x * 4 + y / 16) :: (y % 16 * 16 + z / 4) :: (z % 4 * 64 + w) :: r)
      | some x, some y, some z, none =>
          if d = '=' ∧ rest = [] ∧ z % 4 = 0 then
            some [x * 4 + y / 16, y % 16 * 16 + z / 4]
          else none
      | some x, some y, none, none =>
          if c = '=' ∧ d = '=' ∧ rest = [] ∧ y % 16 = 0 then
            some [x * 4 + y / 16]
          else none
      | _, _, _, _ => none
  | _ => none

/-- An environment with no variables set. -/
def emptyEnv : Env := fun _ => none

/-- The state of a `SecureClientManager` after `__init__`. -/
structure SecureClientManager where
  api_key : Option String
  neo4j_password : Option String
  redis_password : Option String
  use_caddy : Bool
  verify_ssl : Bool
  ssl_cert_path : Option String
  ollama_url : String
  chroma_url : String
  neo4j_http_url : String
  neo4j_bolt_url : String
  session : Session
deriving DecidableEq, Repr

namespace SecureClientManager

/-- `SecureClientManager.__init__`.  The body of the Python constructor has
no `raise` and no fallible call, so the embedding is a total function; `ctr`
is the allocation counter, incremented once for the `requests.Session()`
created eagerly in the constructor body. -/
def init (env : Env) (api_key neo4j_password redis_password : Option String)
    (use_caddy verify_ssl : Bool) (ssl_cert_path : Option String)
    (ctr : Nat) : SecureClientManager × Nat :=
  let api_key := pyOr api_key (env "API_KEY")
  let neo4j_password := pyOr neo4j_password (env "NEO4J_PASSWORD")
  let redis_password := pyOr redis_password (env "REDIS_PASSWORD")
  let ssl_cert_path := pyOr ssl_cert_path (env "SSL_CERT_PATH")
  let ollama_url :=
    if use_caddy then getenvD env "OLLAMA_URL" "https://localhost:18343/ollama"
    else getenvD env "OLLAMA_URL" "http://localhost:11434"
  let chroma_url :=
    if use_caddy then getenvD env "CHROMA_URL" "https://localhost:18343/chroma"
    else getenvD env "CHROMA_URL" "http://localhost:8000"
  let neo4j_http_url :=
    if use_caddy then getenvD env "NEO4J_URL" "https://localhost:18343/neo4j"
    else "http://localhost:7474"
  let neo4j_bolt_url := "bolt://localhost:7687"
  let session := freshSession
  let session :=
    match api_key with
    | some k =>
        if use_caddy && (k != "") then
          { session with headers := updateHeader session.headers "X-API-Key" k }
        else session
    | none => session
  let session :=
    match ssl_cert_path with
    | some p =>
        if p != "" then { session with verify := Verify.certPath p }
        else if !verify_ssl then { session with verify := Verify.disabled }
        else session
    | none =>
        if !verify_ssl then { session with verify := Verify.disabled }
        else session
  ({ api_key := api_key
     neo4j_password := neo4j_password
     redis_password := redis_password
     use_caddy := use_caddy
     verify_ssl := verify_ssl
     ssl_cert_path := ssl_cert_path
     ollama_url := ollama_url
     chroma_url := chroma_url
     neo4j_http_url := neo4j_http_url
     neo4j_bolt_url := neo4j_bolt_url
     session := session }, ctr + 1)

/-- `get_ollama_session`: returns the session created in the constructor
(no new handle is allocated). -/
def get_ollama_session (m : SecureClientManager) (ctr : Nat) : Session × Nat :=
  (m.session, ctr)

/-- `get_chroma_client`.  `chromadbInstalled` is whether `import chromadb`
succeeds; on failure an `ImportError` is raised at this call.  Otherwise the
configured URL is parsed and a fresh `chromadb.HttpClient` is built. -/
def get_chroma_client (chromadbInstalled : Bool) (m : SecureClientManager)
    (ctr : Nat) : Except PyError ChromaClient × Nat :=
  if !chromadbInstalled then
    (Except.error
      ⟨PyErrorKind.importError,
        "chromadb not installed. Install with: pip install chromadb"⟩, ctr)
  else
    let host := (urlHostname m.chroma_url).getD "localhost"
    match urlPort m.chroma_url with
    | Except.error e => (Except.error e, ctr)
    | Except.ok portOpt =>
        let port :=
          match portOpt with
          | some n => if n = 0 then 8000 else n
          | none => 8000
        let (headers, settings) :=
          match m.api_key with
          | some k =>
              if m.use_caddy && (k != "") then
                ([("X-API-Key", k)],
                  some (ChromaSettings.mk k
                    "chromadb.auth.token.TokenAuthClientProvider"))
              else ([], none)
          | none => ([], none)
        (Except.ok
          { host := host, port := port, settings := settings, headers := headers },
          ctr + 1)

/-- `get_neo4j_driver`.  `neo4jInstalled` is whether `import neo4j`
succeeds; the driver always targets the Bolt URL with native auth, and the
(possibly missing) password is passed through unvalidated. -/
def get_neo4j_driver (neo4jInstalled : Bool) (m : SecureClientManager)
    (ctr : Nat) : Except PyError Neo4jDriver × Nat :=
  if !neo4jInstalled then
    (Except.error
      ⟨PyErrorKind.importError, "neo4j not installed. Install with: pip install neo4j"⟩,
      ctr)
  else
    (Except.ok
      { uri := m.neo4j_bolt_url, authUser := "neo4j", authPassword := m.neo4j_password },
      ctr + 1)

/-- `get_neo4j_http_session`: builds a fresh `requests.Session()` on every
call, adds the proxy API key header in proxied mode, and a basic-auth
header `Basic base64("neo4j:" + password)` when a password is configured. -/
def get_neo4j_http_session (m : SecureClientManager) (ctr : Nat) : Session × Nat :=
  let session := freshSession
  let session :=
    match m.api_key with
    | some k =>
        if m.use_caddy && (k != "") then
          { session with headers := updateHeader session.headers "X-API-Key" k }
        else session
    | none => session
  let session :=
    match m.neo4j_password with
    | some p =>
        if p != "" then
          { session with
            headers := updateHeader session.headers "Authorization"
              ("Basic " ++ String.mk (b64encode (strBytes ("neo4j:" ++ p)))) }
        else session
    | none => session
  (session, ctr + 1)

/-- `get_redis_client`.  `redisInstalled` is whether `import redis`
succeeds; the client always connects directly to localhost with the port
taken from `REDIS_PORT` (read at call time) and the configured password. -/
def get_redis_client (redisInstalled : Bool) (m : SecureClientManager)
    (env : Env) (ctr : Nat) : Except PyError RedisClient × Nat :=
  if !redisInstalled then
    (Except.error
      ⟨PyErrorKind.importError, "redis not installed. Install with: pip install redis"⟩,
      ctr)
  else
    match pyInt (getenvD env "REDIS_PORT" "6379") with
    | Except.error e => (Except.error e, ctr)
    | Except.ok port =>
        (Except.ok
          { host := "localhost", port := port, password := m.redis_password,
            decode_responses := true },
          ctr + 1)

end SecureClientManager

/-- One entry of the dictionary returned by `test_connections`: either a
boolean (the Python code stores `True`, `False`, or the result of a
comparison / of `ping()`) or a captured error-description string. -/
inductive TestResult
  | ok (b : Bool)
  | err (s : String)
deriving DecidableEq, Repr

/-- The behaviour of everything outside the gateway: which optional client
libraries import successfully, and what each outbound backend call does
with a given handle (return a value or raise). -/
structure World where
  chromadbInstalled : Bool
  neo4jInstalled : Bool
  redisInstalled : Bool
  ollamaGet : Session → String → Except PyError Nat
  chromaHeartbeat : ChromaClient → Except PyError Unit
  neo4jRun : Neo4jDriver → Except PyError Bool
  neo4jClose : Neo4jDriver → Except PyError Unit
  redisPing : RedisClient → Except PyError Bool

namespace SecureClientManager

/-- `test_connections`: each backend check is wrapped in its own
`try/except Exception` block, so a raised exception becomes the entry
`"Error: " + str(e)` for that backend only and the remaining checks still
run.  In the Neo4j block, `driver.close()` raising after a successful query
overwrites the already-stored boolean (dict re-assignment in `except`). -/
def test_connections (m : SecureClientManager) (w : World) (env : Env)
    (ctr : Nat) : List (String × TestResult) × Nat :=
  let sPair := get_ollama_session m ctr
  let rOllama :=
    match w.ollamaGet sPair.1 (m.ollama_url ++ "/api/tags") with
    | Except.ok code => TestResult.ok (code == 200)
    | Except.error e => TestResult.err ("Error: " ++ e.msg)
  let cPair := get_chroma_client w.chromadbInstalled m sPair.2
  let rChroma :=
    match cPair.1 with
    | Except.error e => TestResult.err ("Error: " ++ e.msg)
    | Except.ok client =>
        match w.chromaHeartbeat client with
        | Except.ok _ => TestResult.ok true
        | Except.error e => TestResult.err ("Error: " ++ e.msg)
  let dPair := get_neo4j_driver w.neo4jInstalled m cPair.2
  let rNeo4j :=
    match dPair.1 with
    | Except.error e => TestResult.err ("Error: " ++ e.msg)
    | Except.ok driver =>
        match w.neo4jRun driver with
        | Except.error e => TestResult.err ("Error: " ++ e.msg)
        | Except.ok single =>
            match w.neo4jClose driver with
            | Except.error e => TestResult.err ("Error: " ++ e.msg)
            | Except.ok _ => TestResult.ok single
  let rPair := get_redis_client w.redisInstalled m env dPair.2
  let rRedis :=
    match rPair.1 with
    | Except.error e => TestResult.err ("Error: " ++ e.msg)
    | Except.ok client =>
        match w.redisPing client with
        | Except.ok pong => TestResult.ok pong
        | Except.error e => TestResult.err ("Error: " ++ e.msg)
  ([("ollama", rOllama), ("chromadb", rChroma), ("neo4j", rNeo4j),
    ("redis", rRedis)], rPair.2)

/-- The Ollama block of `test_connections`, as a function of the manager
and of the Ollama backend behaviour only. -/
def ollamaCheck (m : SecureClientManager)
    (og : Session → String → Except PyError Nat) : TestResult :=
  match og m.session (m.ollama_url ++ "/api/tags") with
  | Except.ok code => TestResult.ok (code == 200)
  | Except.error e => TestResult.err ("Error: " ++ e.msg)

/-- The ChromaDB block of `test_connections`, as a function of the manager
and of the ChromaDB library/backend behaviour only. -/
def chromaCheck (m : SecureClientManager) (installed : Bool)
    (hb : ChromaClient → Except PyError Unit) : TestResult :=
  match (get_chroma_client installed m 0).1 with
  | Except.error e => TestResult.err ("Error: " ++ e.msg)
  | Except.ok client =>
      match hb client with
      | Except.ok _ => TestResult.ok true
      | Except.error e => TestResult.err ("Error: " ++ e.msg)

/-- The Neo4j block of `test_connections`, as a function of the manager and
of the Neo4j library/backend behaviour only. -/
def neo4jCheck (m : SecureClientManager) (installed : Bool)
    (run : Neo4jDriver → Except PyError Bool)
    (close : Neo4jDriver → Except PyError Unit) : TestResult :=
  match (get_neo4j_driver installed m 0).1 with
  | Except.error e => TestResult.err ("Error: " ++ e.msg)
  | Except.ok driver =>
      match run driver with
      | Except.error e => TestResult.err ("Error: " ++ e.msg)
      | Except.ok single =>
          match close driver with
          | Except.error e => TestResult.err ("Error: " ++ e.msg)
          | Except.ok _ => TestResult.ok single

/-- The Redis block of `test_connections`, as a function of the manager,
the environment, and the Redis library/backend behaviour only. -/
def redisCheck (m : SecureClientManager) (env : Env) (installed : Bool)
    (ping : RedisClient → Except PyError Bool) : TestResult :=
  match (get_redis_client installed m env 0).1 with
  | Except.error e => TestResult.err ("Error: " ++ e.msg)
  | Except.ok client =>
      match ping client with
      | Except.ok pong => TestResult.ok pong
      | Except.error e => TestResult.err ("Error: " ++ e.msg)

end SecureClientManager

/-! ## The wizard navigation of `src/ui/app.py` -/

/-- `WIZARD_STEPS` from `src/ui/app.py`. -/
def WIZARD_STEPS : List String :=
  ["Define Goal", "Select Scope", "Choose Operations", "Review & Execute",
   "Explanation & Export"]

/-- Python list item assignment `l[i] = v` with an `int` index: negative
indices count from the end.  An out-of-range index raises `IndexError` in
the source; that case is unreachable for the step indices considered here
and is left as the identity. -/
def pySet {α : Type} (l : List α) (i : Int) (v : α) : List α :=
  if 0 ≤ i ∧ i < (l.length : Int) then l.set i.toNat v
  else if -(l.length : Int) ≤ i ∧ i < 0 then l.set (i + l.length).toNat v
  else l

/-- Python list indexing `l[i]` with an `int` index: negative indices count
from the end.  An out-of-range index raises `IndexError` in the source;
that case is unreachable for the step indices considered here. -/
def pyGet (l : List String) (i : Int) : String :=
  if 0 ≤ i ∧ i < (l.length : Int) then l.getD i.toNat ""
  else if -(l.length : Int) ≤ i ∧ i < 0 then l.getD (i + l.length).toNat ""
  else ""

/-- `render_step_list` from `src/ui/app.py`: the left-hand step-list
markdown with the active step highlighted. -/
def render_step_list (active_idx : Int) : String :=
  let symbols : List String := ["○", "○", "○", "○", "○"]
  let symbols :=
    (List.range active_idx.toNat).foldl (fun acc i => pySet acc (i : Int) "✓") symbols
  let symbols :=
    if active_idx < (symbols.length : Int) then pySet symbols active_idx "●"
    else symbols
  let lines := ["### Steps"]
  let lines := lines ++ WIZARD_STEPS.enum.map (fun p =>
    let i := p.1
    let name := p.2
    let bullet := pyGet symbols (i : Int) ++ " " ++ toString (i + 1) ++ ". " ++ name
    if (i : Int) = active_idx then "- **" ++ bullet ++ "**"
    else if (i : Int) < active_idx then "- ~~" ++ name ++ "~~ ✓"
    else "- " ++ bullet)
  String.intercalate "\n" lines

/-- `wizard_nav` from `src/ui/app.py`: moves the wizard step forward or
back (clamped to the valid range) and recomputes the step markdown, the
step indicator and the five panel-visibility flags (the `visible` values of
the five `gr.update`s). -/
def wizard_nav (step : Int) (direction : String) :
    Int × String × String × List Bool :=
  let step :=
    if direction = "next" then min (step + 1) ((WIZARD_STEPS.length : Int) - 1)
    else if direction = "back" then max (step - 1) 0
    else step
  let visibilities := List.replicate WIZARD_STEPS.length false
  let visibilities := pySet visibilities step true
  let step_md := render_step_list step
  let step_indicator :=
    "**Step " ++ toString (step + 1) ++ " of " ++ toString WIZARD_STEPS.length ++
      " – " ++ pyGet WIZARD_STEPS step ++ "**"
  (step, step_md, step_indicator, visibilities)

/-! ## Helper lemmas -/

/-- Decoding a base64 digit recovers the 6-bit value it encodes. -/
theorem b64val_b64char : ∀ n : Nat, n < 64 → b64val (b64char n) = some n := by decide

/-- The padding character is not a base64 digit. -/
theorem b64val_pad : b64val '=' = none := by decide

/-- Base64 round-trip: decoding an encoded byte list recovers the bytes. -/
theorem b64_roundtrip : ∀ (l : List Nat), (∀ x ∈ l, x < 256) →
    b64decode (b64encode l) = some l
  | [], _ => rfl
  | [a], h => by
      have ha : a < 256 := h a (by simp)
      simp only [b64encode, b64decode]
      rw [b64val_b64char _ (by omega), b64val_b64char _ (by omega), b64val_pad]
      simp only [Nat.mul_mod_left]
      norm_num
      omega
  | [a, b], h => by
      have ha : a < 256 := h a (by simp)
      have hb : b < 256 := h b (by simp)
      simp only [b64encode, b64decode]
      rw [b64val_b64char _ (by omega), b64val_b64char _ (by omega),
        b64val_b64char _ (by omega), b64val_pad]
      norm_num
      exact ⟨by omega, by omega⟩
  | a :: b :: c :: rest, h => by
      have ha : a < 256 := h a (by simp)
      have hb : b < 256 := h b (by simp)
      have hc : c < 256 := h c (by simp)
      have ih := b64_roundtrip rest (fun x hx => h x (by simp [hx]))
      simp only [b64encode, b64decode]
      rw [b64val_b64char _ (by omega), b64val_b64char _ (by omega),
        b64val_b64char _ (by omega), b64val_b64char _ (by omega)]
      have e1 : a / 4 * 4 + (a % 4 * 16 + b / 16) / 16 = a := by omega
      have e2 : (a % 4 * 16 + b / 16) % 16 * 16 + (b % 16 * 4 + c / 64) / 4 = b := by omega
      have e3 : (b % 16 * 4 + c / 64) % 4 * 64 + c % 64 = c := by omega
      simp [ih, e1, e2, e3]

namespace SecureClientManager

/-- The headers of the session created by the constructor. -/
theorem init_session_headers (env : Env) (a n r : Option String)
    (mode v : Bool) (s : Option String) (c : Nat) :
    ((init env a n r mode v s c).1).session.headers =
      (match pyOr a (env "API_KEY") with
        | some k => if mode && (k != "") then [("X-API-Key", k)] else []
        | none => []) := by
  simp only [init, freshSession]
  rcases pyOr a (env "API_KEY") with _ | k <;>
    rcases pyOr s (env "SSL_CERT_PATH") with _ | p <;>
    simp [updateHeader] <;> split_ifs <;> simp

/-- The `verify` attribute of the session created by the constructor. -/
theorem init_session_verify (env : Env) (a n r : Option String)
    (mode v : Bool) (s : Option String) (c : Nat) :
    ((init env a n r mode v s c).1).session.verify =
      (match pyOr s (env "SSL_CERT_PATH") with
        | some p =>
            if p != "" then Verify.certPath p
            else if !v then Verify.disabled else Verify.enabled
        | none => if !v then Verify.disabled else Verify.enabled) := by
  simp only [init, freshSession]
  rcases pyOr a (env "API_KEY") with _ | k <;>
    rcases pyOr s (env "SSL_CERT_PATH") with _ | p <;>
    simp <;> split_ifs <;> simp

/-- The constructor stores `use_caddy` unchanged. -/
theorem init_use_caddy (env : Env) (a n r : Option String)
    (mode v : Bool) (s : Option String) (c : Nat) :
    ((init env a n r mode v s c).1).use_caddy = mode := rfl

/-- The constructor stores the resolved API key unvalidated. -/
theorem init_api_key (env : Env) (a n r : Option String)
    (mode v : Bool) (s : Option String) (c : Nat) :
    ((init env a n r mode v s c).1).api_key = pyOr a (env "API_KEY") := rfl

/-- The constructor stores the resolved graph password unvalidated. -/
theorem init_neo4j_password (env : Env) (a n r : Option String)
    (mode v : Bool) (s : Option String) (c : Nat) :
    ((init env a n r mode v s c).1).neo4j_password = pyOr n (env "NEO4J_PASSWORD") := rfl

/-- The constructor stores the resolved cache password unvalidated. -/
theorem init_redis_password (env : Env) (a n r : Option String)
    (mode v : Bool) (s : Option String) (c : Nat) :
    ((init env a n r mode v s c).1).redis_password = pyOr r (env "REDIS_PASSWORD") := rfl

/-- The handle produced by `get_chroma_client` does not depend on the
allocation counter. -/
theorem get_chroma_client_fst (i : Bool) (m : SecureClientManager) (c1 c2 : Nat) :
    (get_chroma_client i m c1).1 = (get_chroma_client i m c2).1 := by
  cases i <;> simp only [get_chroma_client] <;>
    rcases urlPort m.chroma_url with e | po <;> simp

/-- The handle produced by `get_neo4j_driver` does not depend on the
allocation counter. -/
theorem get_neo4j_driver_fst (i : Bool) (m : SecureClientManager) (c1 c2 : Nat) :
    (get_neo4j_driver i m c1).1 = (get_neo4j_driver i m c2).1 := by
  cases i <;> rfl

/-- The session produced by `get_neo4j_http_session` does not depend on the
allocation counter. -/
theorem get_neo4j_http_session_fst (m : SecureClientManager) (c1 c2 : Nat) :
    (get_neo4j_http_session m c1).1 = (get_neo4j_http_session m c2).1 := rfl

/-- The handle produced by `get_redis_client` does not depend on the
allocation counter. -/
theorem get_redis_client_fst (i : Bool) (m : SecureClientManager) (env : Env)
    (c1 c2 : Nat) :
    (get_redis_client i m env c1).1 = (get_redis_client i m env c2).1 := by
  cases i <;> simp only [get_redis_client] <;>
    rcases pyInt (getenvD env "REDIS_PORT" "6379") with e | p <;> simp

/-- The Ollama entry is a boolean or an `"Error: "`-prefixed string. -/
theorem ollamaCheck_shape (m : SecureClientManager)
    (og : Session → String → Except PyError Nat) :
    (∃ bv, ollamaCheck m og = TestResult.ok bv) ∨
      ∃ es, ollamaCheck m og = TestResult.err ("Error: " ++ es) := by
  unfold ollamaCheck
  rcases h : og m.session (m.ollama_url ++ "/api/tags") with e | code <;> simp

/-- The ChromaDB entry is a boolean or an `"Error: "`-prefixed string. -/
theorem chromaCheck_shape (m : SecureClientManager) (i : Bool)
    (hb : ChromaClient → Except PyError Unit) :
    (∃ bv, chromaCheck m i hb = TestResult.ok bv) ∨
      ∃ es, chromaCheck m i hb = TestResult.err ("Error: " ++ es) := by
  unfold chromaCheck
  rcases h : (get_chroma_client i m 0).1 with e | client <;> simp
  rcases h2 : hb client with e | u <;> simp

/-- The Neo4j entry is a boolean or an `"Error: "`-prefixed string. -/
theorem neo4jCheck_shape (m : SecureClientManager) (i : Bool)
    (run : Neo4jDriver → Except PyError Bool)
    (close : Neo4jDriver → Except PyError Unit) :
    (∃ bv, neo4jCheck m i run close = TestResult.ok bv) ∨
      ∃ es, neo4jCheck m i run close = TestResult.err ("Error: " ++ es) := by
  unfold neo4jCheck
  rcases h : (get_neo4j_driver i m 0).1 with e | driver <;> simp
  rcases h2 : run driver with e | single <;> simp
  rcases h3 : close driver with e | u <;> simp

/-- The Redis entry is a boolean or an `"Error: "`-prefixed string. -/
theorem redisCheck_shape (m : SecureClientManager) (env : Env) (i : Bool)
    (ping : RedisClient → Except PyError Bool) :
    (∃ bv, redisCheck m env i ping = TestResult.ok bv) ∨
      ∃ es, redisCheck m env i ping = TestResult.err ("Error: " ++ es) := by
  unfold redisCheck
  rcases h : (get_redis_client i m env 0).1 with e | client <;> simp
  rcases h2 : ping client with e | pong <;> simp

/-- `test_connections` is the list of the four independent per-backend
checks, in insertion order. -/
theorem test_connections_eq (m : SecureClientManager) (w : World) (env : Env)
    (c : Nat) :
    (test_connections m w env c).1 =
      [("ollama", ollamaCheck m w.ollamaGet),
       ("chromadb", chromaCheck m w.chromadbInstalled w.chromaHeartbeat),
       ("neo4j", neo4jCheck m w.neo4jInstalled w.neo4jRun w.neo4jClose),
       ("redis", redisCheck m env w.redisInstalled w.redisPing)] := by
  simp only [test_connections, ollamaCheck, chromaCheck, neo4jCheck, redisCheck,
    get_ollama_session]
  rw [get_chroma_client_fst w.chromadbInstalled m c 0,
    get_neo4j_driver_fst w.neo4jInstalled m _ 0,
    get_redis_client_fst w.redisInstalled m env _ 0]

end SecureClientManager

/-- Every character code is below the Unicode bound. -/
theorem char_toNat_lt (c : Char) : c.toNat < 1114112 := by
  have h := c.valid
  have he : c.toNat = c.val.toNat := rfl
  unfold UInt32.isValidChar Nat.isValidChar at h
  rcases h with h | ⟨h1, h2⟩ <;> omega

/-- Every UTF-8 byte of a string is below 256. -/
theorem strBytes_lt (s : String) : ∀ x ∈ strBytes s, x < 256 := by
  intro x hx
  simp only [strBytes, List.mem_flatMap] at hx
  obtain ⟨c, _, hc⟩ := hx
  have hb := char_toNat_lt c
  simp only [utf8Bytes] at hc
  split_ifs at hc <;> simp at hc <;> omega

/-! ## The claims -/

/-- **C1**: for every gateway configuration and every behaviour of the four
backends, `test_connections` returns (it is a total function: every backend
call is inside its own catch-all `except`) a dictionary with exactly the
four keys `ollama`, `chromadb`, `neo4j`, `redis`; each entry is computed by
a per-backend check that depends only on that backend's library
availability and network behaviour, so an exception in one backend cannot
affect the other three entries; and every value is either a boolean or a
captured `"Error: "`-prefixed description string. -/
theorem C1_test_connections_total_isolated (m : SecureClientManager) (w : World)
    (env : Env) (c : Nat) :
    (SecureClientManager.test_connections m w env c).1 =
      [("ollama", SecureClientManager.ollamaCheck m w.ollamaGet),
       ("chromadb", SecureClientManager.chromaCheck m w.chromadbInstalled w.chromaHeartbeat),
       ("neo4j", SecureClientManager.neo4jCheck m w.neo4jInstalled w.neo4jRun w.neo4jClose),
       ("redis", SecureClientManager.redisCheck m env w.redisInstalled w.redisPing)] ∧
    ((SecureClientManager.test_connections m w env c).1).map Prod.fst =
      ["ollama", "chromadb", "neo4j", "redis"] ∧
    ∀ p ∈ (SecureClientManager.test_connections m w env c).1,
      (∃ bv, p.2 = TestResult.ok bv) ∨ ∃ es, p.2 = TestResult.err ("Error: " ++ es) := by
  refine ⟨SecureClientManager.test_connections_eq m w env c, ?_, ?_⟩
  · rw [SecureClientManager.test_connections_eq m w env c]
    rfl
  · rw [SecureClientManager.test_connections_eq m w env c]
    intro p hp
    simp only [List.mem_cons, List.not_mem_nil, or_false] at hp
    rcases hp with rfl | rfl | rfl | rfl
    · exact SecureClientManager.ollamaCheck_shape m w.ollamaGet
    · exact SecureClientManager.chromaCheck_shape m w.chromadbInstalled w.chromaHeartbeat
    · exact SecureClientManager.neo4jCheck_shape m w.neo4jInstalled w.neo4jRun w.neo4jClose
    · exact SecureClientManager.redisCheck_shape m env w.redisInstalled w.redisPing

/-- **C2**: the base session returned by `get_ollama_session` and the
session returned by `get_neo4j_http_session` carry the `X-API-Key` header
with the configured api key exactly when the gateway is proxied
(`use_caddy = True`) and the resolved api key is configured (truthy); in
direct mode, or with no (or an empty) api key, the header is absent. -/
theorem C2_api_key_header_iff_proxied (env : Env) (a n r : Option String)
    (mode v : Bool) (s : Option String) (c c2 c3 : Nat) :
    headerGet ((SecureClientManager.get_ollama_session
        ((SecureClientManager.init env a n r mode v s c).1) c2).1).headers "X-API-Key" =
      (if mode then truthyStr (pyOr a (env "API_KEY")) else none) ∧
    headerGet ((SecureClientManager.get_neo4j_http_session
        ((SecureClientManager.init env a n r mode v s c).1) c3).1).headers "X-API-Key" =
      (if mode then truthyStr (pyOr a (env "API_KEY")) else none) := by
  constructor
  · simp only [SecureClientManager.get_ollama_session,
      SecureClientManager.init_session_headers]
    rcases pyOr a (env "API_KEY") with _ | k
    · simp [truthyStr, pyTruthy, headerGet]
    · by_cases hk : k = "" <;> cases mode <;>
        simp [truthyStr, pyTruthy, headerGet, hk]
  · simp only [SecureClientManager.get_neo4j_http_session, freshSession,
      SecureClientManager.init_api_key, SecureClientManager.init_neo4j_password,
      SecureClientManager.init_use_caddy]
    rcases pyOr a (env "API_KEY") with _ | k <;>
      rcases pyOr n (env "NEO4J_PASSWORD") with _ | p
    · simp [truthyStr, pyTruthy, headerGet]
    · by_cases hp : p = "" <;> simp [truthyStr, pyTruthy, headerGet, updateHeader, hp]
    · by_cases hk : k = "" <;> cases mode <;>
        simp [truthyStr, pyTruthy, headerGet, updateHeader, hk]
    · by_cases hk : k = "" <;> by_cases hp : p = "" <;> cases mode <;>
        simp [truthyStr, pyTruthy, headerGet, updateHeader, hk, hp]

/-- **C4**: the Bolt URL used by `get_neo4j_driver` and the connection
parameters used by `get_redis_client` are identical for a gateway
constructed with `use_caddy = True` and one constructed with
`use_caddy = False` (same credentials/environment): both backends are
always reached directly, in both modes. -/
theorem C4_bolt_and_cache_mode_independent (env : Env)
    (a n r : Option String) (v : Bool) (s : Option String) (c : Nat)
    (iN iR : Bool) (c2 c3 : Nat) :
    ((SecureClientManager.init env a n r true v s c).1).neo4j_bolt_url =
      ((SecureClientManager.init env a n r false v s c).1).neo4j_bolt_url ∧
    SecureClientManager.get_neo4j_driver iN
        ((SecureClientManager.init env a n r true v s c).1) c2 =
      SecureClientManager.get_neo4j_driver iN
        ((SecureClientManager.init env a n r false v s c).1) c2 ∧
    SecureClientManager.get_redis_client iR
        ((SecureClientManager.init env a n r true v s c).1) env c3 =
      SecureClientManager.get_redis_client iR
        ((SecureClientManager.init env a n r false v s c).1) env c3 :=
  ⟨rfl, rfl, rfl⟩

/-- **C5**: construction is a total function (the embedded `__init__` has
no failure path, for every combination of supplied or missing credentials):
it stores each credential exactly as resolved from argument-or-environment,
with no validation; and a handle that needs a credential — the graph driver
— is still produced successfully at accessor time, with the possibly-absent
password passed through to the backend, so a missing-credential failure can
only surface when the handle is actually used, never at construction. -/
theorem C5_lazy_credential_validation (env : Env) (a n r : Option String)
    (mode v : Bool) (s : Option String) (c c2 : Nat) :
    ((SecureClientManager.init env a n r mode v s c).1).api_key =
      pyOr a (env "API_KEY") ∧
    ((SecureClientManager.init env a n r mode v s c).1).neo4j_password =
      pyOr n (env "NEO4J_PASSWORD") ∧
    ((SecureClientManager.init env a n r mode v s c).1).redis_password =
      pyOr r (env "REDIS_PASSWORD") ∧
    (SecureClientManager.get_neo4j_driver true
        ((SecureClientManager.init env a n r mode v s c).1) c2).1 =
      Except.ok
        { uri := "bolt://localhost:7687", authUser := "neo4j",
          authPassword := pyOr n (env "NEO4J_PASSWORD") } :=
  ⟨rfl, rfl, rfl, rfl⟩

/-- **C7**: with a client library unavailable, the corresponding accessor
(`get_chroma_client`, `get_neo4j_driver`, `get_redis_client`) raises an
`ImportError` immediately at that call (and allocates nothing); the other
accessors are unaffected — each accessor's result depends only on its own
library's availability, and with its own library present each accessor
still succeeds (shown on an arbitrary gateway for the graph driver, and on
a default-constructed gateway for the other two). -/
theorem C7_missing_library_import_error (m : SecureClientManager) (env : Env)
    (c : Nat) :
    SecureClientManager.get_chroma_client false m c =
      (Except.error ⟨PyErrorKind.importError,
        "chromadb not installed. Install with: pip install chromadb"⟩, c) ∧
    SecureClientManager.get_neo4j_driver false m c =
      (Except.error ⟨PyErrorKind.importError,
        "neo4j not installed. Install with: pip install neo4j"⟩, c) ∧
    SecureClientManager.get_redis_client false m env c =
      (Except.error ⟨PyErrorKind.importError,
        "redis not installed. Install with: pip install redis"⟩, c) ∧
    ((SecureClientManager.get_neo4j_driver true m c).1).isOk = true ∧
    ((SecureClientManager.get_chroma_client true
        ((SecureClientManager.init emptyEnv none none none true true none 0).1) c).1).isOk = true ∧
    ((SecureClientManager.get_redis_client true
        ((SecureClientManager.init emptyEnv none none none true true none 0).1)
        emptyEnv c).1).isOk = true :=
  ⟨rfl, rfl, rfl, rfl, rfl, rfl⟩

/-- **C8**: with a fixed gateway and unchanged environment, every `get_*`
accessor called twice returns the same handle configuration both times —
the same target URL and the same authentication material (for the shared
base session, literally the same cached session). -/
theorem C8_accessors_idempotent (m : SecureClientManager) (env : Env)
    (iC iN iR : Bool) (c1 c2 : Nat) :
    (SecureClientManager.get_ollama_session m c1).1 =
      (SecureClientManager.get_ollama_session m c2).1 ∧
    (SecureClientManager.get_chroma_client iC m c1).1 =
      (SecureClientManager.get_chroma_client iC m c2).1 ∧
    (SecureClientManager.get_neo4j_driver iN m c1).1 =
      (SecureClientManager.get_neo4j_driver iN m c2).1 ∧
    (SecureClientManager.get_neo4j_http_session m c1).1 =
      (SecureClientManager.get_neo4j_http_session m c2).1 ∧
    (SecureClientManager.get_redis_client iR m env c1).1 =
      (SecureClientManager.get_redis_client iR m env c2).1 :=
  ⟨rfl, SecureClientManager.get_chroma_client_fst iC m c1 c2,
    SecureClientManager.get_neo4j_driver_fst iN m c1 c2, rfl,
    SecureClientManager.get_redis_client_fst iR m env c1 c2⟩

/-- **C10**: `get_neo4j_http_session` builds a fresh session on every call
(one allocation per call) whose certificate verification is the library
default (enabled) for every gateway configuration — including
`verify_ssl = False` and configured certificate paths — while the base
session built by the constructor gets the certificate path when one is
given and disabled verification when `verify_ssl` is false with no path. -/
theorem C10_graph_http_session_tls_default (env : Env) (a n r : Option String)
    (mode v : Bool) (s : Option String) (c c2 : Nat) :
    ((SecureClientManager.get_neo4j_http_session
        ((SecureClientManager.init env a n r mode v s c).1) c2).1).verify =
      Verify.enabled ∧
    (SecureClientManager.get_neo4j_http_session
        ((SecureClientManager.init env a n r mode v s c).1) c2).2 = c2 + 1 ∧
    ((SecureClientManager.init env a n r mode v s c).1).session.verify =
      (match pyOr s (env "SSL_CERT_PATH") with
        | some p =>
            if p != "" then Verify.certPath p
            else if !v then Verify.disabled else Verify.enabled
        | none => if !v then Verify.disabled else Verify.enabled) := by
  refine ⟨?_, rfl, SecureClientManager.init_session_verify env a n r mode v s c⟩
  simp only [SecureClientManager.get_neo4j_http_session, freshSession]
  rcases ((SecureClientManager.init env a n r mode v s c).1).api_key with _ | k <;>
    rcases ((SecureClientManager.init env a n r mode v s c).1).neo4j_password with _ | p <;>
    simp <;> split_ifs <;> simp

/-- **C3** (counterexample): the claim says the graph HTTP session carries
the basic-auth `Authorization` header for every configuration and in every
mode; but for a gateway constructed with no graph password at all (none
supplied, none in the environment) the code skips the header — here the
session of a default proxied gateway has no `Authorization` header. -/
theorem C3_counterexample :
    headerGet ((SecureClientManager.get_neo4j_http_session
        ((SecureClientManager.init emptyEnv none none none true true none 0).1) 1).1).headers
      "Authorization" = none := rfl

/-- **C3** (amended): whenever a graph-db password is configured (the
resolved password is present and non-empty), in every mode, the session
returned by `get_neo4j_http_session` carries an `Authorization` header
equal to `"Basic "` followed by the base64 encoding of
`"neo4j:" + password`, and base64-decoding that encoding recovers exactly
the original `principal:password` bytes (encode-then-decode round-trip). -/
theorem C3_basic_auth_roundtrip (env : Env) (a n r : Option String)
    (mode v : Bool) (s : Option String) (c c2 : Nat) (p : String)
    (hp : pyOr n (env "NEO4J_PASSWORD") = some p) (hne : p ≠ "") :
    headerGet ((SecureClientManager.get_neo4j_http_session
        ((SecureClientManager.init env a n r mode v s c).1) c2).1).headers "Authorization" =
      some ("Basic " ++ String.mk (b64encode (strBytes ("neo4j:" ++ p)))) ∧
    b64decode (b64encode (strBytes ("neo4j:" ++ p))) = some (strBytes ("neo4j:" ++ p)) := by
  constructor
  · simp only [SecureClientManager.get_neo4j_http_session, freshSession,
      SecureClientManager.init_api_key, SecureClientManager.init_neo4j_password,
      SecureClientManager.init_use_caddy, hp]
    rcases pyOr a (env "API_KEY") with _ | k
    · simp [headerGet, updateHeader, hne]
    · by_cases hk : k = "" <;> cases mode <;> simp [headerGet, updateHeader, hne, hk]
  · exact b64_roundtrip _ (strBytes_lt _)

/-- An environment that sets only the graph-db password. -/
def envNeoPw : Env := fun k => if k = "NEO4J_PASSWORD" then some "secret" else none

/-- **C3** (witness): the amended theorem at a concrete configuration. -/
theorem C3_basic_auth_roundtrip_witness :
    pyOr none (envNeoPw "NEO4J_PASSWORD") = some "secret" ∧
    ("secret" : String) ≠ "" ∧
    (headerGet ((SecureClientManager.get_neo4j_http_session
        ((SecureClientManager.init envNeoPw none none none true true none 0).1) 1).1).headers
        "Authorization" =
      some ("Basic " ++ String.mk (b64encode (strBytes ("neo4j:" ++ "secret")))) ∧
    b64decode (b64encode (strBytes ("neo4j:" ++ "secret"))) =
      some (strBytes ("neo4j:" ++ "secret"))) :=
  ⟨rfl, by decide,
    C3_basic_auth_roundtrip envNeoPw none none none true true none 0 1 "secret" rfl
      (by decide)⟩

/-- **C6** (counterexample): the claim says construction creates no backend
session or client handle; but constructing the gateway performs one handle
allocation (the shared `requests.Session()` built eagerly in `__init__`):
the allocation counter does not stay at zero. -/
theorem C6_counterexample :
    ¬ ((SecureClientManager.init emptyEnv none none none true true none 0).2 = 0) := by
  decide

/-- **C6** (amended): construction eagerly creates exactly one handle — the
shared HTTP session, which `get_ollama_session` then returns without
allocating anything; every other backend handle (the graph HTTP session,
the graph driver, the vector-store client, the cache client) is constructed
on demand, one allocation at each accessor call (shown on an arbitrary
gateway where the accessor cannot fail, and on a default-constructed
gateway for the two accessors that parse configuration first). -/
theorem C6_eager_base_session_lazy_rest (env : Env) (a n r : Option String)
    (mode v : Bool) (s : Option String) (c c2 : Nat) (m : SecureClientManager) :
    (SecureClientManager.init env a n r mode v s c).2 = c + 1 ∧
    SecureClientManager.get_ollama_session m c2 = (m.session, c2) ∧
    (SecureClientManager.get_neo4j_http_session m c2).2 = c2 + 1 ∧
    (SecureClientManager.get_neo4j_driver true m c2).2 = c2 + 1 ∧
    (SecureClientManager.get_chroma_client true
        ((SecureClientManager.init emptyEnv none none none true true none 0).1) c2).2 = c2 + 1 ∧
    (SecureClientManager.get_redis_client true
        ((SecureClientManager.init emptyEnv none none none true true none 0).1)
        emptyEnv c2).2 = c2 + 1 :=
  ⟨rfl, rfl, rfl, rfl, rfl, rfl⟩

/-- **C9**: for every step index in `{0..4}`, `wizard_nav step "next"`
returns `min (step+1) 4` and `wizard_nav step "back"` returns
`max (step-1) 0`; the returned index stays in `{0..4}`; and the returned
visibility flags make exactly one of the five step panels visible — the one
at the returned index. -/
theorem C9_wizard_nav_clamped (step : Int) (h0 : 0 ≤ step) (h4 : step ≤ 4) :
    ((wizard_nav step "next").1 = min (step + 1) 4 ∧
      (wizard_nav step "back").1 = max (step - 1) 0) ∧
    (0 ≤ (wizard_nav step "next").1 ∧ (wizard_nav step "next").1 ≤ 4 ∧
      0 ≤ (wizard_nav step "back").1 ∧ (wizard_nav step "back").1 ≤ 4) ∧
    (wizard_nav step "next").2.2.2 =
      (List.range 5).map (fun i => decide ((i : Int) = (wizard_nav step "next").1)) ∧
    (wizard_nav step "back").2.2.2 =
      (List.range 5).map (fun i => decide ((i : Int) = (wizard_nav step "back").1)) := by
  interval_cases step <;> decide

/-- **C9** (witness): the theorem at step 2. -/
theorem C9_wizard_nav_clamped_witness :
    ((0 : Int) ≤ 2 ∧ (2 : Int) ≤ 4) ∧
    (((wizard_nav 2 "next").1 = min (2 + 1) 4 ∧
      (wizard_nav 2 "back").1 = max (2 - 1) 0) ∧
    (0 ≤ (wizard_nav 2 "next").1 ∧ (wizard_nav 2 "next").1 ≤ 4 ∧
      0 ≤ (wizard_nav 2 "back").1 ∧ (wizard_nav 2 "back").1 ≤ 4) ∧
    (wizard_nav 2 "next").2.2.2 =
      (List.range 5).map (fun i => decide ((i : Int) = (wizard_nav 2 "next").1)) ∧
    (wizard_nav 2 "back").2.2.2 =
      (List.range 5).map (fun i => decide ((i : Int) = (wizard_nav 2 "back").1))) :=
  ⟨⟨by decide, by decide⟩, C9_wizard_nav_clamped 2 (by decide) (by decide)⟩
